import Mathlib

/-!
Verification development for the Chronos Lens repository: a browser front end
that orchestrates a two-stage generative-AI pipeline (scene synthesis, then
image synthesis) plus geocoding-driven location state.

The embedding is shallow: the pure logic of `src/services/geminiService.ts`
(`ensureApiKey`, `generateVisualPrompt`, `generateSnapshot`) and of the
`App.tsx` handlers (`handleSearch`, `handleReverseGeocode`, `handleMapClick`,
`handleRecommendationChange`, `handleGenerate`) is translated into total Lean
functions.  All effects on the outside world (the `window.aistudio` credential
collaborator, the two Gemini endpoints, the Nominatim geocoding endpoint) are
modelled as explicit inputs: each handler takes the response (or transport
failure) that the external call produced and returns the resulting component
state, together with a trace of the external calls it issued.  A JavaScript
exception escaping an expression is modelled with `Except`; a caught exception
is modelled by the corresponding branch of the translated handler.
-/

namespace Chronos

/-! ## JavaScript value model

JSON values as produced by the JavaScript runtime's `JSON.parse`, together
with the JavaScript coercions the source relies on (truthiness, property
access, string interpolation). -/

/-- A JavaScript number as it appears in JSON text: sign, decimal mantissa
and decimal exponent (the value is `±mantissa·10^exponent`).  This keeps the
exact decimal the parser saw; JavaScript's further rounding to a 64-bit
float is not modelled (no verified claim compares numeric magnitudes — only
zero-ness, which rounding preserves, and the data-model plumbing). -/
structure JsNumber where
  neg : Bool
  mantissa : Nat
  exponent : Int
deriving DecidableEq

inductive JsValue where
  | null
  | bool (b : Bool)
  | num (n : JsNumber)
  | str (s : String)
  | arr (elems : List JsValue)
  | obj (fields : List (String × JsValue))

/-- JavaScript truthiness of a JSON value (`undefined` is handled separately
by `Option` at use sites); a number is falsy exactly when it is zero. -/
def jsTruthy : JsValue → Bool
  | .null => false
  | .bool b => b
  | .num n => decide (n.mantissa ≠ 0)
  | .str s => decide (s ≠ "")
  | .arr _ => true
  | .obj _ => true

/-- Field lookup in a parsed JSON object.  `JSON.parse` keeps the last
binding for a duplicated key, hence the reverse search. -/
def jsLookupField (fields : List (String × JsValue)) (k : String) : Option JsValue :=
  (fields.reverse.find? (fun p => p.1 == k)).map (·.2)

/-- JavaScript property access `v.k` for the named properties the source
reads.  Reading a property of `null` throws a `TypeError` (`.error ()`);
on other non-object values the named properties used here are `undefined`
(`.ok none`). -/
def jsGetField (v : JsValue) (k : String) : Except Unit (Option JsValue) :=
  match v with
  | .null => .error ()
  | .obj fields => .ok (jsLookupField fields k)
  | _ => .ok none

/-- JavaScript `x || d` where `x` may be `undefined` (`none`). -/
def jsOrDefault (v : Option JsValue) (d : JsValue) : JsValue :=
  match v with
  | some w => if jsTruthy w then w else d
  | none => d

/-- Whether a JavaScript value is a non-empty string. -/
def jsIsNonemptyStr : JsValue → Bool
  | .str s => decide (s ≠ "")
  | _ => false

/-- Rendering of a number in decimal-ish form, used only for the non-string
cases of template-literal interpolation (never exercised by the verified
claims; JavaScript prints doubles, which this approximates). -/
def jsNumDisplay (n : JsNumber) : String :=
  (if n.neg then "-" else "") ++ toString n.mantissa ++
    (if n.exponent = 0 then "" else "e" ++ toString n.exponent)

mutual

/-- JavaScript `ToString` as applied by template-literal interpolation. -/
def jsDisplay : JsValue → String
  | .null => "null"
  | .bool b => if b then "true" else "false"
  | .num n => jsNumDisplay n
  | .str s => s
  | .arr xs => String.intercalate "," (jsDisplayList xs)
  | .obj _ => "[object Object]"

def jsDisplayList : List JsValue → List String
  | [] => []
  | x :: xs => jsDisplay x :: jsDisplayList xs

end

/-! ## A model of the runtime's `JSON.parse`

Recursive-descent parser over the character list, with a fuel argument for
termination.  It accepts the JSON grammar: the literals, numbers (with
optional fraction and exponent, no leading zeros), strings with the standard
escapes, arrays and objects, with insignificant whitespace. -/

/-- Skip JSON insignificant whitespace. -/
def skipWs : List Char → List Char
  | [] => []
  | c :: cs => if c = ' ' ∨ c = '\n' ∨ c = '\r' ∨ c = '\t' then skipWs cs else c :: cs

/-- Split off the leading decimal digits. -/
def leadingDigits : List Char → List Char × List Char
  | [] => ([], [])
  | c :: cs =>
    if c.isDigit then
      let (ds, r) := leadingDigits cs
      (c :: ds, r)
    else ([], c :: cs)

/-- Numeric value of a digit string. -/
def natOfDigits (ds : List Char) : Nat :=
  ds.foldl (fun a c => a * 10 + (c.toNat - 48)) 0

/-- Value of a hexadecimal digit, if any. -/
def hexVal (c : Char) : Option Nat :=
  if '0' ≤ c ∧ c ≤ '9' then some (c.toNat - 48)
  else if 'a' ≤ c ∧ c ≤ 'f' then some (c.toNat - 87)
  else if 'A' ≤ c ∧ c ≤ 'F' then some (c.toNat - 55)
  else none

/-- Single-character JSON escape. -/
def escChar : Char → Option Char
  | '"' => some '"'
  | '\\' => some '\\'
  | '/' => some '/'
  | 'b' => some (Char.ofNat 8)
  | 'f' => some (Char.ofNat 12)
  | 'n' => some '\n'
  | 'r' => some '\r'
  | 't' => some '\t'
  | _ => none

/-- Parse the body of a JSON string after the opening quote, returning the
string and the remaining input. -/
def parseStringBody : List Char → Option (String × List Char)
  | [] => none
  | '"' :: rest => some ("", rest)
  | '\\' :: 'u' :: a :: b :: c :: d :: rest => do
    let ha ← hexVal a
    let hb ← hexVal b
    let hc ← hexVal c
    let hd ← hexVal d
    let (s, r) ← parseStringBody rest
    return (String.mk (Char.ofNat (((ha * 16 + hb) * 16 + hc) * 16 + hd) :: s.toList), r)
  | '\\' :: e :: rest => do
    let ec ← escChar e
    let (s, r) ← parseStringBody rest
    return (String.mk (ec :: s.toList), r)
  | c :: rest =>
    if c.toNat < 32 then none
    else do
      let (s, r) ← parseStringBody rest
      return (String.mk (c :: s.toList), r)

/-- Parse an optional fraction part (after the integer part). -/
def parseFrac : List Char → Option (List Char × List Char)
  | '.' :: rest =>
    let (ds, r) := leadingDigits rest
    if ds.isEmpty then none else some (ds, r)
  | rest => some ([], rest)

/-- Parse an optional exponent part. -/
def parseExp : List Char → Option (Int × List Char)
  | c :: rest =>
    if c = 'e' ∨ c = 'E' then
      let signed : Bool × List Char :=
        match rest with
        | '+' :: rr => (false, rr)
        | '-' :: rr => (true, rr)
        | rr => (false, rr)
      let (ds, r2) := leadingDigits signed.2
      if ds.isEmpty then none
      else some ((if signed.1 then -(natOfDigits ds : Int) else (natOfDigits ds : Int)), r2)
    else some (0, c :: rest)
  | [] => some (0, [])

/-- Assemble the value of a parsed JSON number from its integer digits,
fraction digits and exponent. -/
def mkNumber (neg : Bool) (ids fds : List Char) (e : Int) : JsNumber :=
  { neg := neg, mantissa := natOfDigits (ids ++ fds), exponent := e - fds.length }

/-- Parse a JSON number. -/
def parseNumber (input : List Char) : Option (JsNumber × List Char) :=
  let signed : Bool × List Char :=
    match input with
    | '-' :: r => (true, r)
    | r => (false, r)
  match leadingDigits signed.2 with
  | ([], _) => none
  | (i :: ids, r1) =>
    if i = '0' ∧ ids ≠ [] then none
    else do
      let (fds, r2) ← parseFrac r1
      let (e, r3) ← parseExp r2
      return (mkNumber signed.1 (i :: ids) fds e, r3)

mutual

/-- Parse a JSON value (fuelled). -/
def parseValue : Nat → List Char → Option (JsValue × List Char)
  | 0, _ => none
  | fuel + 1, input =>
    match skipWs input with
    | [] => none
    | '"' :: rest => (parseStringBody rest).map (fun p => (.str p.1, p.2))
    | 't' :: 'r' :: 'u' :: 'e' :: rest => some (.bool true, rest)
    | 'f' :: 'a' :: 'l' :: 's' :: 'e' :: rest => some (.bool false, rest)
    | 'n' :: 'u' :: 'l' :: 'l' :: rest => some (.null, rest)
    | '[' :: rest =>
      (match skipWs rest with
       | ']' :: r => some (.arr [], r)
       | r => (parseElems fuel r).map (fun p => (.arr p.1, p.2)))
    | '\x7b' :: rest =>
      (match skipWs rest with
       | '\x7d' :: r => some (.obj [], r)
       | r => (parseFields fuel r).map (fun p => (.obj p.1, p.2)))
    | c :: rest =>
      if c = '-' ∨ c.isDigit then (parseNumber (c :: rest)).map (fun p => (.num p.1, p.2))
      else none

/-- Parse the elements of a non-empty JSON array (fuelled). -/
def parseElems : Nat → List Char → Option (List JsValue × List Char)
  | 0, _ => none
  | fuel + 1, input => do
    let (v, r1) ← parseValue fuel input
    match skipWs r1 with
    | ',' :: r2 => do
      let (vs, r3) ← parseElems fuel r2
      return (v :: vs, r3)
    | ']' :: r2 => return ([v], r2)
    | _ => none

/-- Parse the members of a non-empty JSON object (fuelled). -/
def parseFields : Nat → List Char → Option (List (String × JsValue) × List Char)
  | 0, _ => none
  | fuel + 1, input =>
    match skipWs input with
    | '"' :: rest => do
      let (k, r1) ← parseStringBody rest
      match skipWs r1 with
      | ':' :: r2 => do
        let (v, r3) ← parseValue fuel r2
        match skipWs r3 with
        | ',' :: r4 => do
          let (fs, r5) ← parseFields fuel r4
          return ((k, v) :: fs, r5)
        | '\x7d' :: r4 => return ([(k, v)], r4)
        | _ => none
      | _ => none
    | _ => none

end

/-- The runtime's `JSON.parse`: `.error ()` models a thrown `SyntaxError`. -/
def jsonParse (s : String) : Except Unit JsValue :=
  match parseValue (2 * s.length + 4) s.toList with
  | some (v, rest) => if skipWs rest = [] then .ok v else .error ()
  | none => .error ()

/-! ## Further JavaScript runtime pieces used by `App.tsx` -/

/-- JavaScript `String.prototype.includes` on character lists. -/
def listContainsSub (pat s : List Char) : Bool :=
  s.tails.any (fun t => pat.isPrefixOf t)

/-- JavaScript `haystack.includes(needle)`. -/
def strContains (haystack needle : String) : Bool :=
  listContainsSub needle.toList haystack.toList

/-- JavaScript `s.trim()`: strip whitespace from both ends. -/
def jsTrim (s : String) : String :=
  String.mk (((s.toList.dropWhile Char.isWhitespace).reverse.dropWhile Char.isWhitespace).reverse)

/-- JavaScript `data.length > 0` as used on the geocoder's parsed response:
true for a non-empty array or string; for the remaining shapes the `length`
property is `undefined` here and `undefined > 0` is `false` (the endpoint
returns a JSON array, so no object carrying its own `length` field occurs). -/
def jsLengthPos : JsValue → Bool
  | .arr xs => decide (xs.length ≠ 0)
  | .str s => decide (s.length ≠ 0)
  | _ => false

/-- JavaScript `data[0]`: element of an array, first character of a string,
the `"0"` property of an object; `undefined` (`none`) otherwise. -/
def jsIndexZero : JsValue → Option JsValue
  | .arr (x :: _) => some x
  | .arr [] => none
  | .str s =>
    (match s.toList with
     | c :: _ => some (.str (String.mk [c]))
     | [] => none)
  | .obj fields => jsLookupField fields "0"
  | _ => none

/-- JavaScript `s.split(',')[0]`: the text before the first comma
(`split` always returns at least one element). -/
def firstCommaPart (s : String) : String :=
  (s.splitOn ",").headD ""

/-- JavaScript `parseInt(s)` for the plain decimal inputs the preset
selector produces: leading whitespace skipped, optional sign, then the
leading run of decimal digits; `none` models `NaN` (no digit found).
The automatic hexadecimal radix detection of `parseInt` is not modelled
(no `0x`-prefixed input reaches this code). -/
def parseIntJs (s : String) : Option Int :=
  let cs := skipWs s.toList
  let signed : Bool × List Char :=
    match cs with
    | '-' :: r => (true, r)
    | '+' :: r => (false, r)
    | r => (false, r)
  let (ds, _) := leadingDigits signed.2
  if ds.isEmpty then none
  else some (if signed.1 then -(natOfDigits ds : Int) else (natOfDigits ds : Int))

/-- JavaScript `parseFloat` applied to a possibly-`undefined` property value,
as in `parseFloat(data[0].lat)`: `none` models `NaN`.  Strings are parsed
greedily for a leading decimal number (with optional fraction and exponent,
trailing junk ignored); numbers pass through; `undefined`, `null`, booleans
and the remaining shapes (which coerce through their string form, a case the
geocoding endpoint never produces) give `NaN`. -/
def parseFloatJs (v : Option JsValue) : Option JsNumber :=
  match v with
  | some (.num n) => some n
  | some (.str s) =>
    let cs := skipWs s.toList
    let signed : Bool × List Char :=
      match cs with
      | '-' :: r => (true, r)
      | '+' :: r => (false, r)
      | r => (false, r)
    let (ids, r1) := leadingDigits signed.2
    let (fds, r2) :=
      match r1 with
      | '.' :: rr => leadingDigits rr
      | _ => ([], r1)
    let e : Int :=
      match parseExp r2 with
      | some (e, _) => e
      | none => 0
    if ids.isEmpty ∧ fds.isEmpty then none
    else some (mkNumber signed.1 ids fds e)
  | _ => none

/-! ## Data model (`src/types.ts`)

Latitude/longitude are JavaScript doubles in the source; they are modelled as
`Option JsNumber`, with `none` standing for `NaN` (producible only through
`parseFloat` on malformed geocoder output). -/

structure Coordinates where
  lat : Option JsNumber
  lng : Option JsNumber
deriving DecidableEq

structure LocationData where
  name : String
  coords : Coordinates
deriving DecidableEq

inductive PhotoStyle where
  | REALISTIC
  | STREET
  | PORTRAIT
  | VINTAGE
  | CINEMATIC
  | JOURNALISTIC
  | PAINTING
deriving DecidableEq

/-- The string value of each `PhotoStyle` enum member in `types.ts`; this is
what `${request.style}` interpolates. -/
def styleLabel : PhotoStyle → String
  | .REALISTIC => "Realistic Photo"
  | .STREET => "Street Photography"
  | .PORTRAIT => "Portrait"
  | .VINTAGE => "Vintage/Sepia"
  | .CINEMATIC => "Cinematic Shot"
  | .JOURNALISTIC => "Photojournalism"
  | .PAINTING => "Oil Painting"

structure GenerationRequest where
  location : LocationData
  date : String
  time : Option String
  style : PhotoStyle

/-- Intermediate scene-synthesis output.  The fields are JavaScript values:
the TypeScript annotation says `string`, but the code assigns whatever the
parsed JSON payload held, unchecked. -/
structure VisualContext where
  visualPrompt : JsValue
  story : JsValue

structure GeneratedImage where
  imageUrl : String
  description : JsValue
  story : JsValue
  promptUsed : String

/-! ## Service adapters (`src/services/geminiService.ts`) -/

/-- Trace of externally visible calls a run performs. -/
inductive RunEvent where
  | hasKeyCheck
  | openPicker
  | sceneRequest
  | imageRequest
deriving DecidableEq

/-- Oracle for the `window.aistudio` credential collaborator: the result of
`hasSelectedApiKey()` before the picker is opened, and its result after. -/
structure AiStudioOracle where
  hasKeyBefore : Bool
  hasKeyAfterPick : Bool

/-- Translation of `ensureApiKey`: if `window.aistudio` exists, check for a
key; when absent, open the picker and re-check; with no collaborator, report
`false`.  Also returns the trace of collaborator calls. -/
def ensureApiKey : Option AiStudioOracle → Bool × List RunEvent
  | some a =>
    if a.hasKeyBefore then (true, [.hasKeyCheck])
    else (a.hasKeyAfterPick, [.hasKeyCheck, .openPicker, .hasKeyCheck])
  | none => (false, [])

/-- Whether `ensureApiKey` reports a usable credential. -/
def keyAvailable (o : Option AiStudioOracle) : Bool :=
  (ensureApiKey o).1

/-- A thrown JavaScript error as observed by a `catch` block: its `message`
property, which may be absent. -/
structure JsError where
  message : Option String

/-- Response of the text-generation endpoint: `response.text` from the SDK,
which may be `undefined`. -/
structure TextResponse where
  text : Option String

/-- The source text handed to `JSON.parse` inside `generateVisualPrompt`:
`response.text || "\x7b\x7d"`. -/
def parseSource (text : Option String) : String :=
  let raw := text.getD ""
  if raw = "" then "\x7b\x7d" else raw

/-- Translation of `generateVisualPrompt` after the text-generation response
has arrived (a transport failure at the `generateContent` call itself
propagates to the caller and is handled there; the outgoing prompt text is
assembled from the request and sent externally, and nothing downstream reads
it).  The `try` block parses the payload and reads the two fields, so both a
`JSON.parse` syntax error and the `TypeError` of reading a property of a
parsed `null` land in the `catch`, which degrades to the raw text and a fixed
placeholder. -/
def generateVisualPrompt (_request : GenerationRequest) (response : TextResponse) :
    VisualContext :=
  let raw := response.text.getD ""
  let fallback : VisualContext :=
    { visualPrompt := .str (if raw = "" then "A historical scene." else raw),
      story := .str "Time travel successful, but the flight log is scrambled." }
  match jsonParse (parseSource response.text) with
  | .error _ => fallback
  | .ok json =>
    match jsGetField json "visualPrompt", jsGetField json "story" with
    | .ok vp, .ok st =>
      { visualPrompt := jsOrDefault vp (.str "A historical scene."),
        story := jsOrDefault st (.str "Welcome to the past!") }
    | _, _ => fallback

/-- Inline image payload of a response part (`part.inlineData`), whose
`data` property may be absent. -/
structure InlineData where
  data : Option String

structure Part where
  inlineData : Option InlineData
  text : Option String

structure Content where
  parts : Option (List Part)

structure Candidate where
  content : Option Content

/-- Response of the image-generation endpoint. -/
structure SnapshotResponse where
  candidates : Option (List Candidate)

/-- The optional chain `response.candidates?.[0]?.content?.parts`. -/
def partsOf (r : SnapshotResponse) : Option (List Part) :=
  match r.candidates with
  | some (c :: _) =>
    (match c.content with
     | some ct => ct.parts
     | none => none)
  | _ => none

/-- Loop condition `part.inlineData && part.inlineData.data`: the part
carries a truthy (non-empty, present) inline payload. -/
def hasInlineImage (p : Part) : Bool :=
  match p.inlineData with
  | some dd => decide (dd.data.getD "" ≠ "")
  | none => false

/-- The `for … break` scan over the parts: base64 payload of the first part
whose inline data is truthy. -/
def firstInlineData (ps : List Part) : Option String :=
  ps.findSome? fun p =>
    match p.inlineData with
    | some dd =>
      (match dd.data with
       | some s => if s = "" then none else some s
       | none => none)
    | none => none

/-- The combined prompt template literal of `generateSnapshot`, byte for
byte, with the two interpolations. -/
def mkFinalPrompt (context : VisualContext) (style : PhotoStyle) : String :=
  "\n    " ++ jsDisplay context.visualPrompt ++
    "\n    \n    Style: " ++ styleLabel style ++
    ".\n    Quality: High resolution, photorealistic, 8k, detailed textures.\n    Camera: Accurate to the era if vintage, or modern high-end capture if realistic.\n  "

/-- Translation of `generateSnapshot`: compose the combined prompt, issue the
image request (its outcome is the `world` argument; the surrounding
`try`/`catch` only logs and rethrows, so a transport failure passes through),
scan the returned parts for the first truthy inline payload, and either throw
the no-image error or assemble the `GeneratedImage`. -/
def generateSnapshot (request : GenerationRequest) (context : VisualContext)
    (world : Except JsError SnapshotResponse) : Except JsError GeneratedImage :=
  let finalPrompt := mkFinalPrompt context request.style
  match world with
  | .error e => .error e
  | .ok response =>
    let imageUrl : String :=
      match firstInlineData ((partsOf response).getD []) with
      | some d => "data:image/png;base64," ++ d
      | none => ""
    if imageUrl = "" then .error { message := some "No image data received from API." }
    else
      .ok { imageUrl := imageUrl, description := context.visualPrompt,
            story := context.story, promptUsed := finalPrompt }

/-! ## Application state and handlers (`src/App.tsx`)

The component state is the tuple of `useState` hooks.  `isLoading` and
`loadingStep` are included for fidelity; every handler's `finally` block
resets them, so they are `false`/empty in every post-handler state. -/

structure AppState where
  coords : Coordinates
  locationName : String
  date : String
  time : String
  style : PhotoStyle
  isLoading : Bool
  loadingStep : String
  result : Option GeneratedImage
  error : Option String

/-- One entry of the `RECOMMENDATIONS` preset table. -/
structure Recommendation where
  label : String
  locationName : String
  coords : Coordinates
  date : String
  time : String
  style : PhotoStyle

/-- The `RECOMMENDATIONS` array, verbatim; each numeric literal is written
as its decimal sign/mantissa/exponent, so `⟨false, 286562, -4⟩` is the
source's `28.6562`. -/
def RECOMMENDATIONS : List Recommendation :=
  [ { label := "🇮🇳 India's Independence", locationName := "Red Fort, Delhi",
      coords := { lat := some ⟨false, 286562, -4⟩, lng := some ⟨false, 772410, -4⟩ },
      date := "1947-08-15", time := "08:30", style := .JOURNALISTIC },
    { label := "🚀 Apollo 11 Landing", locationName := "Tranquility Base, Moon",
      coords := { lat := some ⟨false, 6740, -4⟩, lng := some ⟨false, 234720, -4⟩ },
      date := "1969-07-20", time := "20:17", style := .REALISTIC },
    { label := "🧱 Fall of Berlin Wall", locationName := "Brandenburg Gate, Berlin",
      coords := { lat := some ⟨false, 525163, -4⟩, lng := some ⟨false, 133777, -4⟩ },
      date := "1989-11-09", time := "23:00", style := .JOURNALISTIC },
    { label := "🦖 Jurassic Era", locationName := "Isla Nublar (Costa Rica)",
      coords := { lat := some ⟨false, 97489, -4⟩, lng := some ⟨true, 837534, -4⟩ },
      date := "-65000000-01-01", time := "12:00", style := .CINEMATIC },
    { label := "☮️ Woodstock '69", locationName := "Bethel, New York",
      coords := { lat := some ⟨false, 41701, -3⟩, lng := some ⟨true, 74880, -3⟩ },
      date := "1969-08-15", time := "14:00", style := .VINTAGE },
    { label := "⛴️ Titanic Departure", locationName := "Southampton Docks, UK",
      coords := { lat := some ⟨false, 508970, -4⟩, lng := some ⟨true, 14040, -4⟩ },
      date := "1912-04-10", time := "12:00", style := .VINTAGE } ]

/-- Translation of `handleSearch`.  The input `world` is the outcome of the
forward-geocode fetch: a transport/JSON failure, or the parsed response body.
The `catch` maps any throw inside the `try` — including the `TypeError`s of
reading `.lat` on an undefined element or calling `.split` on a non-string
`display_name` — to the "Could not find location." banner; note that in the
latter case `setCoords` has already run.  The `finally` resets the loading
fields. -/
def handleSearch (s : AppState) (world : Except Unit JsValue) : AppState :=
  if jsTrim s.locationName = "" then s
  else
    let base := { s with isLoading := false, loadingStep := "" }
    match world with
    | .error _ => { base with error := some "Could not find location." }
    | .ok data =>
      if jsTruthy data && jsLengthPos data then
        match jsIndexZero data with
        | none => { base with error := some "Could not find location." }
        | some elem =>
          match jsGetField elem "lat", jsGetField elem "lon", jsGetField elem "display_name" with
          | .ok latv, .ok lonv, .ok dn =>
            let newCoords : Coordinates := { lat := parseFloatJs latv, lng := parseFloatJs lonv }
            (match dn with
             | some (.str t) =>
               { base with coords := newCoords, locationName := firstCommaPart t }
             | _ =>
               { base with coords := newCoords, error := some "Could not find location." })
          | _, _, _ => { base with error := some "Could not find location." }
      else { base with error := some "Location not found." }

/-- Translation of `handleReverseGeocode`: best effort, every throw inside
the `try` (transport failure, JSON failure, property `TypeError`) is
swallowed by the empty `catch`. -/
def handleReverseGeocode (s : AppState) (world : Except Unit JsValue) : AppState :=
  match world with
  | .error _ => s
  | .ok data =>
    if jsTruthy data then
      match jsGetField data "display_name" with
      | .ok (some (.str t)) =>
        let p := firstCommaPart t
        { s with locationName := if p = "" then "Selected Location" else p }
      | _ => s
    else s

/-- Translation of `handleMapClick`: set the coordinates, then fire the
best-effort reverse geocode. -/
def handleMapClick (newCoords : Coordinates) (s : AppState)
    (world : Except Unit JsValue) : AppState :=
  handleReverseGeocode { s with coords := newCoords } world

/-- Translation of `handleRecommendationChange` on the select value.  A `NaN`
index returns early; an in-range index copies the preset into the five state
fields and clears the result and error; an out-of-range index would make
`RECOMMENDATIONS[index]` `undefined` and the property reads throw out of the
handler (`none`; never reachable from the rendered options). -/
def handleRecommendationChange (value : String) (s : AppState) : Option AppState :=
  match parseIntJs value with
  | none => some s
  | some index =>
    match (if 0 ≤ index then RECOMMENDATIONS.get? index.toNat else none) with
    | none => none
    | some r =>
      some { s with locationName := r.locationName, coords := r.coords, date := r.date,
                    time := r.time, style := r.style, result := none, error := none }

/-- The request record `handleGenerate` builds from the current state. -/
def buildRequest (s : AppState) : GenerationRequest :=
  { location := { name := s.locationName, coords := s.coords },
    date := s.date, time := some s.time, style := s.style }

/-- The `catch` block of `handleGenerate`: `err.message &&
err.message.includes("Requested entity was not found")` remaps to the
key-validation banner, otherwise `err.message || <generic fallback>`. -/
def mapRunError (e : JsError) : String :=
  match e.message with
  | some m =>
    if m = "" then "Failed to generate time travel snapshot."
    else if strContains m "Requested entity was not found" then
      "API Key validation failed. Please try selecting your key again."
    else m
  | none => "Failed to generate time travel snapshot."

/-- External outcomes consumed by one `handleGenerate` run. -/
structure GenWorld where
  aistudioObj : Option AiStudioOracle
  sceneResult : Except JsError TextResponse
  imageResult : Except JsError SnapshotResponse

/-- Translation of `handleGenerate`: clear the banner and the previous
result, run the credential guard, then the two adapter calls in sequence;
any throw lands in the shared `catch`, and the `finally` resets the loading
fields.  Returns the post-run state and the trace of external calls. -/
def handleGenerate (s : AppState) (w : GenWorld) : AppState × List RunEvent :=
  let s0 := { s with error := none, result := none }
  let keyOutcome := ensureApiKey w.aistudioObj
  if keyOutcome.1 = false then
    ({ s0 with error := some "API Key is required to use the Time Machine.",
               isLoading := false, loadingStep := "" }, keyOutcome.2)
  else
    let request := buildRequest s0
    match w.sceneResult with
    | .error e =>
      ({ s0 with error := some (mapRunError e), isLoading := false, loadingStep := "" },
       keyOutcome.2 ++ [.sceneRequest])
    | .ok resp =>
      let visualContext := generateVisualPrompt request resp
      match generateSnapshot request visualContext w.imageResult with
      | .error e =>
        ({ s0 with error := some (mapRunError e), isLoading := false, loadingStep := "" },
         keyOutcome.2 ++ [.sceneRequest, .imageRequest])
      | .ok generatedImage =>
        ({ s0 with result := some generatedImage, isLoading := false, loadingStep := "" },
         keyOutcome.2 ++ [.sceneRequest, .imageRequest])

/-! ## Shared concrete fixtures and helper lemmas -/

/-- The Red Fort coordinates `(28.6562, 77.2410)` in decimal form. -/
def redFortCoords : Coordinates :=
  { lat := some ⟨false, 286562, -4⟩, lng := some ⟨false, 772410, -4⟩ }

/-- A concrete request (the Red Fort scenario of the spec). -/
def sampleRequest : GenerationRequest :=
  { location := { name := "Red Fort, Delhi", coords := redFortCoords },
    date := "1947-08-15", time := some "08:30", style := .JOURNALISTIC }

/-- The app's initial component state. -/
def initialState : AppState :=
  { coords := redFortCoords,
    locationName := "Red Fort, Delhi", date := "1947-08-15", time := "10:00",
    style := .JOURNALISTIC, isLoading := false, loadingStep := "",
    result := none, error := none }

theorem strContains_spec (s pat : String) :
    strContains s pat = true ↔ pat.toList <:+: s.toList := by
  unfold strContains listContainsSub
  rw [List.any_eq_true]
  constructor
  · rintro ⟨t, ht, hp⟩
    exact List.infix_iff_prefix_suffix.mpr
      ⟨t, List.isPrefixOf_iff_prefix.mp hp, (List.mem_tails _ _).mp ht⟩
  · intro h
    obtain ⟨t, hp, hs⟩ := List.infix_iff_prefix_suffix.mp h
    exact ⟨t, (List.mem_tails _ _).mpr hs, List.isPrefixOf_iff_prefix.mpr hp⟩

theorem strContains_append_right (a b pat : String) (h : strContains b pat = true) :
    strContains (a ++ b) pat = true := by
  rw [strContains_spec] at h ⊢
  refine h.trans ?_
  show b.data <:+: (a ++ b).data
  rw [String.data_append]
  exact (List.suffix_append _ _).isInfix

theorem strContains_append_left (a b pat : String) (h : strContains a pat = true) :
    strContains (a ++ b) pat = true := by
  rw [strContains_spec] at h ⊢
  refine h.trans ?_
  show a.data <:+: (a ++ b).data
  rw [String.data_append]
  exact (List.prefix_append _ _).isInfix

theorem data_url_ne_empty (d : String) : "data:image/png;base64," ++ d ≠ "" := by
  intro h
  have h2 := congrArg String.length h
  rw [String.length_append] at h2
  rw [show String.length "data:image/png;base64," = 22 from rfl] at h2
  rw [show String.length "" = 0 from rfl] at h2
  omega

theorem firstInlineData_eq_none_iff (ps : List Part) :
    firstInlineData ps = none ↔ ∀ p ∈ ps, hasInlineImage p = false := by
  unfold firstInlineData
  rw [List.findSome?_eq_none_iff]
  refine forall_congr' fun p => imp_congr_right fun _ => ?_
  unfold hasInlineImage
  rcases p with ⟨idata, ptext⟩
  dsimp only
  cases idata with
  | none => simp
  | some dd =>
    rcases dd with ⟨dat⟩
    dsimp only
    cases dat with
    | none => simp
    | some s => by_cases hs : s = "" <;> simp [hs]

/-! ## Claim C2: scene-synthesis parse fallback -/

/-- Definition following the spec's words, for comparison with the code: a
payload "parses as the two-field `\x7bvisualPrompt, story\x7d` structure"
when it parses as JSON to an object carrying both fields. -/
def specParsesAsTwoField (payload : String) : Bool :=
  match jsonParse payload with
  | .ok (.obj fields) =>
    (jsLookupField fields "visualPrompt").isSome && (jsLookupField fields "story").isSome
  | _ => false

/-- C2 counterexample: the payload consisting of an empty JSON object does
not parse as the two-field structure, yet the adapter returns the fixed
per-field defaults — not the raw returned text as the description, and not
the catch-branch placeholder as the narrative — because `JSON.parse`
succeeds on it and only its thrown errors reach the fallback. -/
theorem scene_fallback_counterexample :
    specParsesAsTwoField "\x7b\x7d" = false ∧
    generateVisualPrompt sampleRequest { text := some "\x7b\x7d" } =
      { visualPrompt := .str "A historical scene.", story := .str "Welcome to the past!" } ∧
    "A historical scene." ≠ "\x7b\x7d" ∧
    "Welcome to the past!" ≠ "Time travel successful, but the flight log is scrambled." :=
  ⟨rfl, rfl, by decide, by decide⟩

/-- C2 (amended): the raw-text/fixed-placeholder fallback is the behaviour
exactly for payloads on which the `try` block throws — a payload on which
`JSON.parse` raises, and also the payload parsing to JSON `null`, whose
property read throws a `TypeError` into the same `catch` (the adapter itself
is a total function of the response: it never raises at this stage).  A
payload that parses as JSON to a non-null value carrying neither field
instead degrades to the fixed per-field defaults, not to the raw text. -/
theorem scene_parse_degrade (request : GenerationRequest) (t : String) :
    (t ≠ "" → jsonParse t = .error () →
      generateVisualPrompt request { text := some t } =
        { visualPrompt := .str t,
          story := .str "Time travel successful, but the flight log is scrambled." }) ∧
    (jsonParse t = .ok .null →
      generateVisualPrompt request { text := some t } =
        { visualPrompt := .str t,
          story := .str "Time travel successful, but the flight log is scrambled." }) ∧
    (∀ json, jsonParse t = .ok json →
      jsGetField json "visualPrompt" = .ok none → jsGetField json "story" = .ok none →
      generateVisualPrompt request { text := some t } =
        { visualPrompt := .str "A historical scene.", story := .str "Welcome to the past!" }) := by
  refine ⟨?_, ?_, ?_⟩
  · intro hne hfail
    unfold generateVisualPrompt
    have hsrc : parseSource (some t) = t := by simp [parseSource, hne]
    rw [hsrc, hfail]
    simp [hne]
  · intro hok
    have hne : t ≠ "" := by
      intro h
      rw [h, show jsonParse "" = .error () from rfl] at hok
      exact Except.noConfusion hok
    unfold generateVisualPrompt
    have hsrc : parseSource (some t) = t := by simp [parseSource, hne]
    rw [hsrc, hok]
    dsimp only [jsGetField]
    simp [hne]
  · intro json hok h1 h2
    have hne : t ≠ "" := by
      intro h
      rw [h, show jsonParse "" = .error () from rfl] at hok
      exact Except.noConfusion hok
    unfold generateVisualPrompt
    have hsrc : parseSource (some t) = t := by simp [parseSource, hne]
    rw [hsrc, hok]
    dsimp only
    rw [h1, h2]
    rfl

/-- C2 witness: a concrete syntactically invalid payload takes the raw-text
fallback. -/
theorem scene_parse_degrade_witness :
    generateVisualPrompt sampleRequest { text := some "oops" } =
      { visualPrompt := .str "oops",
        story := .str "Time travel successful, but the flight log is scrambled." } :=
  (scene_parse_degrade sampleRequest "oops").1 (by decide) rfl

/-! ## Claim C10: scene-synthesis fields are non-empty strings -/

/-- Whether a JavaScript value is a number. -/
def jsIsNum : JsValue → Bool
  | .num _ => true
  | _ => false

/-- C10 counterexample: a payload whose `visualPrompt` field is the JSON
number `5` parses fine, `5` is truthy, and the adapter hands the number
through unchanged — the returned visual description is a number, not a
(non-empty) string. -/
theorem nonempty_fields_counterexample :
    jsIsNum (generateVisualPrompt sampleRequest
        { text := some "\x7b\"visualPrompt\":5,\"story\":\"hi\"\x7d" }).visualPrompt = true ∧
    jsIsNonemptyStr (generateVisualPrompt sampleRequest
        { text := some "\x7b\"visualPrompt\":5,\"story\":\"hi\"\x7d" }).visualPrompt = false :=
  ⟨rfl, rfl⟩

/-- Whether the payload field `k`, as the adapter reads it, is a string or
absent; fields of any other type are exactly what the declared response
schema (two required `STRING` properties) rules out.  The `.error` case
(property access on a parsed `null`) lands in the catch branch, which is
covered separately. -/
def fieldStrOrAbsent (json : JsValue) (k : String) : Bool :=
  match jsGetField json k with
  | .ok (some (.str _)) => true
  | .ok (some _) => false
  | .ok none => true
  | .error _ => true

/-- C10 (amended): whenever the payload's two fields, as read by the adapter,
are strings or absent — which is all the declared response schema allows —
both returned fields are non-empty strings: a missing or empty field is
replaced by its fixed default, and both catch-branch fallbacks are non-empty
as well.  A field of any other JSON type, however, is passed through as-is
(see the counterexample), so the claim's unconditional form fails. -/
theorem fields_nonempty_when_schema_respected (request : GenerationRequest)
    (text : Option String)
    (hschema : ∀ json, jsonParse (parseSource text) = .ok json →
      fieldStrOrAbsent json "visualPrompt" = true ∧ fieldStrOrAbsent json "story" = true) :
    jsIsNonemptyStr (generateVisualPrompt request { text := text }).visualPrompt = true ∧
    jsIsNonemptyStr (generateVisualPrompt request { text := text }).story = true := by
  unfold generateVisualPrompt
  dsimp only
  cases hp : jsonParse (parseSource text) with
  | error e =>
    by_cases hr : text.getD "" = "" <;> simp [hr, jsIsNonemptyStr]
  | ok json =>
    dsimp only
    obtain ⟨hv, hs⟩ := hschema json hp
    unfold fieldStrOrAbsent at hv hs
    cases hgv : jsGetField json "visualPrompt" with
    | error e =>
      cases hgs : jsGetField json "story" with
      | error e2 =>
        dsimp only
        by_cases hr : text.getD "" = "" <;> simp [hr, jsIsNonemptyStr]
      | ok os =>
        dsimp only
        by_cases hr : text.getD "" = "" <;> simp [hr, jsIsNonemptyStr]
    | ok ov =>
      cases hgs : jsGetField json "story" with
      | error e2 =>
        dsimp only
        by_cases hr : text.getD "" = "" <;> simp [hr, jsIsNonemptyStr]
      | ok os =>
        rw [hgv] at hv
        rw [hgs] at hs
        dsimp only at hv hs ⊢
        constructor
        · rcases ov with _ | v
          · simp [jsOrDefault, jsIsNonemptyStr]
          · rcases v with _ | b | q | s | xs | fs <;> simp at hv
            by_cases hemp : s = "" <;>
              simp [jsOrDefault, jsTruthy, jsIsNonemptyStr, hemp]
        · rcases os with _ | v
          · simp [jsOrDefault, jsIsNonemptyStr]
          · rcases v with _ | b | q | s | xs | fs <;> simp at hs
            by_cases hemp : s = "" <;>
              simp [jsOrDefault, jsTruthy, jsIsNonemptyStr, hemp]

/-- C10 witness: the empty-object payload (both fields absent) yields the two
non-empty defaults. -/
theorem fields_nonempty_when_schema_respected_witness :
    jsIsNonemptyStr (generateVisualPrompt sampleRequest
        { text := some "\x7b\x7d" }).visualPrompt = true ∧
    jsIsNonemptyStr (generateVisualPrompt sampleRequest
        { text := some "\x7b\x7d" }).story = true :=
  fields_nonempty_when_schema_respected sampleRequest (some "\x7b\x7d")
    (by
      intro json h
      have h' : Except.ok (JsValue.obj []) = Except.ok json := h
      injection h' with h2
      rw [← h2]
      exact ⟨rfl, rfl⟩)

/-! ## Claim C3: image-synthesis extraction rule -/

/-- C3: once an image-synthesis response has arrived, the adapter throws the
no-image error exactly when no returned part carries (truthy) inline image
data — the empty and the absent parts list included — and otherwise builds
the result from the first part that carries inline data, wrapping its base64
payload as a data URL. -/
theorem image_extraction_first_inline (request : GenerationRequest)
    (context : VisualContext) (resp : SnapshotResponse) :
    (generateSnapshot request context (.ok resp) =
        .error { message := some "No image data received from API." } ↔
      ∀ p ∈ (partsOf resp).getD [], hasInlineImage p = false) ∧
    (∀ ps₁ p ps₂ dd s, (partsOf resp).getD [] = ps₁ ++ p :: ps₂ →
      (∀ q ∈ ps₁, hasInlineImage q = false) →
      p.inlineData = some dd → dd.data = some s → s ≠ "" →
      generateSnapshot request context (.ok resp) =
        .ok { imageUrl := "data:image/png;base64," ++ s,
              description := context.visualPrompt, story := context.story,
              promptUsed := mkFinalPrompt context request.style }) := by
  constructor
  · rw [← firstInlineData_eq_none_iff]
    unfold generateSnapshot
    dsimp only
    cases hf : firstInlineData ((partsOf resp).getD []) with
    | none => simp
    | some d =>
      have hne : "data:image/png;base64," ++ d ≠ "" := data_url_ne_empty d
      rw [if_neg hne]
      simp
  · intro ps₁ p ps₂ dd s hsplit hpre hdd hds hs
    have hfirst : firstInlineData ((partsOf resp).getD []) = some s := by
      rw [hsplit]
      unfold firstInlineData
      rw [List.findSome?_append]
      have h1 : ps₁.findSome? (fun p =>
          match p.inlineData with
          | some dd =>
            (match dd.data with
             | some s => if s = "" then none else some s
             | none => none)
          | none => none) = none := by
        have := (firstInlineData_eq_none_iff ps₁).mpr hpre
        unfold firstInlineData at this
        exact this
      rw [h1]
      rw [List.findSome?_cons]
      rw [hdd]
      dsimp only
      rw [hds]
      dsimp only
      rw [if_neg hs]
      rfl
    unfold generateSnapshot
    dsimp only
    rw [hfirst]
    rw [if_neg (data_url_ne_empty s)]

/-- A concrete visual context for the extraction witness. -/
def sampleCtx : VisualContext := { visualPrompt := .str "SCENE", story := .str "STORY" }

/-- A response whose first part is a text part and whose second carries
inline data. -/
def sampleResp : SnapshotResponse :=
  { candidates := some
      [{ content := some
          { parts := some
              [{ inlineData := none, text := some "caption" },
               { inlineData := some { data := some "QUJD" }, text := none }] } }] }

/-- C3 witness: the scan skips the data-less first part and uses the second. -/
theorem image_extraction_first_inline_witness :
    generateSnapshot sampleRequest sampleCtx (.ok sampleResp) =
      .ok { imageUrl := "data:image/png;base64,QUJD",
            description := sampleCtx.visualPrompt, story := sampleCtx.story,
            promptUsed := mkFinalPrompt sampleCtx sampleRequest.style } :=
  (image_extraction_first_inline sampleRequest sampleCtx sampleResp).2
    [{ inlineData := none, text := some "caption" }]
    { inlineData := some { data := some "QUJD" }, text := none } []
    { data := some "QUJD" } "QUJD" rfl
    (by
      intro q hq
      rw [List.mem_singleton] at hq
      rw [hq]
      rfl)
    rfl rfl (by decide)

/-! ## Claim C7: preset selection -/

/-- The `i`-th preset. -/
def presetAt (i : Fin 6) : Recommendation :=
  RECOMMENDATIONS.get ⟨i.1, i.isLt⟩

/-- C7: selecting any of the six presets sets the location name, the
coordinates, the date, the time and the style from that preset in the one
resulting state, and clears any prior result and any prior error. -/
theorem preset_selection_atomic (i : Fin 6) (s : AppState) :
    handleRecommendationChange (toString i.1) s =
      some { s with locationName := (presetAt i).locationName,
                    coords := (presetAt i).coords,
                    date := (presetAt i).date,
                    time := (presetAt i).time,
                    style := (presetAt i).style,
                    result := none, error := none } := by
  fin_cases i <;> rfl

/-! ## Claim C8: empty forward-geocode result -/

/-- C8: a forward-geocode lookup that returns the empty result array raises
the location-not-found banner and leaves the location state — coordinates
and location name — exactly as it was (only the banner and the transient
loading fields change). -/
theorem search_not_found_frame (s : AppState) (h : jsTrim s.locationName ≠ "") :
    handleSearch s (.ok (.arr [])) =
      { s with error := some "Location not found.",
               isLoading := false, loadingStep := "" } := by
  unfold handleSearch
  rw [if_neg h]
  rfl

/-- C8 witness. -/
theorem search_not_found_frame_witness :
    handleSearch initialState (.ok (.arr [])) =
      { initialState with error := some "Location not found." } :=
  search_not_found_frame initialState (by decide)

/-! ## Claim C9: reverse geocode is silent and best-effort -/

theorem handleReverseGeocode_shape (s : AppState) (w : Except Unit JsValue) :
    handleReverseGeocode s w = s ∨
      ∃ n, handleReverseGeocode s w = { s with locationName := n } := by
  cases w with
  | error e => exact .inl rfl
  | ok data =>
    unfold handleReverseGeocode
    dsimp only
    split
    · split
      · exact .inr ⟨_, rfl⟩
      · exact .inl rfl
    · exact .inl rfl

/-- C9: the reverse-geocode handler is a total function of the response (it
never raises) and never touches the error banner, the result, or any state
field other than the location name; consequently a map click always ends
with the clicked coordinates installed, whatever the reverse-geocode
outcome — transport failure, malformed body, or success. -/
theorem reverse_geocode_silent (newCoords : Coordinates) (s : AppState)
    (w : Except Unit JsValue) :
    (handleMapClick newCoords s w).coords = newCoords ∧
    (handleMapClick newCoords s w).error = s.error ∧
    (handleMapClick newCoords s w).result = s.result ∧
    (handleMapClick newCoords s w).date = s.date ∧
    (handleMapClick newCoords s w).time = s.time ∧
    (handleMapClick newCoords s w).style = s.style ∧
    (handleMapClick newCoords s w).isLoading = s.isLoading := by
  unfold handleMapClick
  rcases handleReverseGeocode_shape { s with coords := newCoords } w with h | ⟨n, h⟩ <;>
    rw [h] <;> exact ⟨rfl, rfl, rfl, rfl, rfl, rfl, rfl⟩

/-! ## Claim C1: publication only at full completion -/

/-- A previously published result, for the counterexample. -/
def priorImage : GeneratedImage :=
  { imageUrl := "data:image/png;base64,AAAA", description := .str "old scene",
    story := .str "old story", promptUsed := "old prompt" }

/-- A state holding a previously published result. -/
def priorState : AppState := { initialState with result := some priorImage }

/-- A world in which the credential collaborator is absent, so the run fails
before any network call. -/
def keyMissingWorld : GenWorld :=
  { aistudioObj := none, sceneResult := .error { message := none },
    imageResult := .error { message := none } }

/-- C1 counterexample: a failing run does not leave the previously published
result unchanged.  Starting from a state holding a published result, the
credential-missing failure ends with the result slot empty — the handler
clears the result at the start of every run — so the visible change is not
limited to the error message. -/
theorem prior_result_cleared :
    (handleGenerate priorState keyMissingWorld).1.result ≠ priorState.result ∧
    (handleGenerate priorState keyMissingWorld).1.result = none ∧
    (handleGenerate priorState keyMissingWorld).1.error =
      some "API Key is required to use the Time Machine." := by
  refine ⟨?_, rfl, rfl⟩
  show (none : Option GeneratedImage) ≠ some priorImage
  simp

/-- Whether a `handleGenerate` run completes fully: the credential check
reports a usable key, the scene call returns a response, and image synthesis
on that response produces an image. -/
def runSucceeds (s : AppState) (w : GenWorld) : Bool :=
  let s0 := { s with error := none, result := none }
  let request := buildRequest s0
  keyAvailable w.aistudioObj &&
    match w.sceneResult with
    | .error _ => false
    | .ok resp =>
      (match generateSnapshot request (generateVisualPrompt request resp) w.imageResult with
       | .error _ => false
       | .ok _ => true)

/-- C1 (amended): every failing run — credential unavailable, scene-synthesis
error, or image-synthesis failure — publishes no result and sets the error
message; the previously published result is not preserved but cleared at run
start (see the counterexample), so after a failure the result slot is empty.
A result is published only on full completion — indeed it is present after a
run exactly when credential check, scene call and image synthesis all
succeeded, in which case no error is shown and both adapter calls were
made. -/
theorem publish_only_on_completion (s : AppState) (w : GenWorld) :
    (runSucceeds s w = false →
      (handleGenerate s w).1.result = none ∧
      (handleGenerate s w).1.error.isSome = true) ∧
    (runSucceeds s w = true →
      (handleGenerate s w).1.error = none ∧
      (handleGenerate s w).1.result.isSome = true ∧
      RunEvent.sceneRequest ∈ (handleGenerate s w).2 ∧
      RunEvent.imageRequest ∈ (handleGenerate s w).2) ∧
    ((handleGenerate s w).1.result.isSome = true ↔ runSucceeds s w = true) := by
  obtain ⟨ao, sr, ir⟩ := w
  unfold runSucceeds handleGenerate keyAvailable
  dsimp only
  cases hk : (ensureApiKey ao).1 with
  | false =>
    rw [if_pos rfl]
    exact ⟨fun _ => ⟨rfl, rfl⟩,
           fun h => Bool.noConfusion (show false = true from h),
           ⟨fun h => Bool.noConfusion (show false = true from h),
            fun h => Bool.noConfusion (show false = true from h)⟩⟩
  | true =>
    rw [if_neg (fun h => Bool.noConfusion h)]
    cases sr with
    | error e =>
      exact ⟨fun _ => ⟨rfl, rfl⟩,
             fun h => Bool.noConfusion (show false = true from h),
             ⟨fun h => Bool.noConfusion (show false = true from h),
              fun h => Bool.noConfusion (show false = true from h)⟩⟩
    | ok resp =>
      dsimp only
      cases hg : generateSnapshot (buildRequest { s with error := none, result := none })
          (generateVisualPrompt (buildRequest { s with error := none, result := none }) resp)
          ir with
      | error e2 =>
        exact ⟨fun _ => ⟨rfl, rfl⟩,
               fun h => Bool.noConfusion (show false = true from h),
               ⟨fun h => Bool.noConfusion (show false = true from h),
                fun h => Bool.noConfusion (show false = true from h)⟩⟩
      | ok img =>
        refine ⟨fun h => Bool.noConfusion (show true = false from h),
                fun _ => ⟨rfl, rfl, ?_, ?_⟩,
                ⟨fun _ => rfl, fun _ => rfl⟩⟩ <;> simp

/-- A world whose run fails at the scene-synthesis (Analyzing) step with a
plain transport error, the credential being available. -/
def sceneDownWorld : GenWorld :=
  { aistudioObj := some { hasKeyBefore := true, hasKeyAfterPick := true },
    sceneResult := .error { message := some "network down" },
    imageResult := .error { message := some "network down" } }

/-- C1 witness: a run failing at the scene step (not merely the credential
guard) publishes nothing and sets the error, even from a state holding a
previously published result. -/
theorem publish_only_on_completion_witness :
    (handleGenerate priorState sceneDownWorld).1.result = none ∧
    (handleGenerate priorState sceneDownWorld).1.error.isSome = true :=
  (publish_only_on_completion priorState sceneDownWorld).1 rfl

/-! ## Claim C5: error-message remapping -/

/-- A world whose run fails with error `e` at the chosen step — the image
step when `atImage` is true, the scene step otherwise; the credential check
succeeds either way. -/
def worldFailingAt (e : JsError) (atImage : Bool) : GenWorld :=
  { aistudioObj := some { hasKeyBefore := true, hasKeyAfterPick := true },
    sceneResult := if atImage then .ok { text := none } else .error e,
    imageResult := .error e }

/-- The concrete error whose message is the remapped substring. -/
def entityNotFoundError : JsError :=
  { message := some "Requested entity was not found" }

/-- C5 counterexample: an error carrying the entity-not-found message that is
thrown during the Analyzing (scene-synthesis) step — a step at which the
image adapter has not been invoked, hence not the Rendering step — is also
remapped to the key-validation banner instead of surfacing with its original
message, because the one `catch` block covers the whole run. -/
theorem remap_in_analyzing_counterexample :
    (handleGenerate initialState (worldFailingAt entityNotFoundError false)).1.error =
      some "API Key validation failed. Please try selecting your key again." ∧
    (handleGenerate initialState (worldFailingAt entityNotFoundError false)).1.error ≠
      some "Requested entity was not found" ∧
    RunEvent.imageRequest ∉
      (handleGenerate initialState (worldFailingAt entityNotFoundError false)).2 :=
  ⟨rfl, by decide, by decide⟩

/-- C5 (amended): the remap is applied by the single `catch` covering the
whole run, so it hits an error thrown at either step — Analyzing or
Rendering alike: a message containing the entity-not-found text becomes the
key-validation banner, any other non-empty message surfaces verbatim, and an
absent or empty message becomes the generic fallback. -/
theorem error_mapping_any_step (s : AppState) (e : JsError) (atImage : Bool) :
    (handleGenerate s (worldFailingAt e atImage)).1.error =
      some (match e.message with
        | some m =>
          if m = "" then "Failed to generate time travel snapshot."
          else if strContains m "Requested entity was not found" then
            "API Key validation failed. Please try selecting your key again."
          else m
        | none => "Failed to generate time travel snapshot.") := by
  cases atImage with
  | false => rfl
  | true => rfl

/-! ## Claim C4: credential guard -/

theorem handleGenerate_keyMissing (s : AppState) (w : GenWorld)
    (hk : (ensureApiKey w.aistudioObj).1 = false) :
    handleGenerate s w =
      ({ s with error := some "API Key is required to use the Time Machine.",
                result := none, isLoading := false, loadingStep := "" },
       (ensureApiKey w.aistudioObj).2) := by
  unfold handleGenerate
  dsimp only
  rw [hk]
  rfl

theorem handleGenerate_events_keyOk (s : AppState) (w : GenWorld)
    (hk : (ensureApiKey w.aistudioObj).1 = true) :
    (handleGenerate s w).2 = (ensureApiKey w.aistudioObj).2 ++ [.sceneRequest] ∨
    (handleGenerate s w).2 =
      (ensureApiKey w.aistudioObj).2 ++ [.sceneRequest, .imageRequest] := by
  unfold handleGenerate
  dsimp only
  rw [hk]
  rw [if_neg (by exact fun h => Bool.noConfusion h)]
  split
  · exact .inl rfl
  · split
    · exact .inr rfl
    · exact .inr rfl

/-- C4: before any network request, the orchestrator consults the credential
collaborator — the picker is opened exactly once when the first check fails
and never otherwise, the re-check decides availability — and when the
credential is unavailable (no collaborator, or a still-false re-check) the
run fails with the credential-required banner, publishes nothing, and
invokes neither adapter. -/
theorem credential_guard (s : AppState) (w : GenWorld) :
    ((handleGenerate s w).2.count RunEvent.openPicker =
      (match w.aistudioObj with
       | some a => if a.hasKeyBefore then 0 else 1
       | none => 0)) ∧
    (∀ a, w.aistudioObj = some a → a.hasKeyBefore = false →
      keyAvailable w.aistudioObj = a.hasKeyAfterPick) ∧
    (keyAvailable w.aistudioObj = false →
      (handleGenerate s w).1.error = some "API Key is required to use the Time Machine." ∧
      (handleGenerate s w).1.result = none ∧
      RunEvent.sceneRequest ∉ (handleGenerate s w).2 ∧
      RunEvent.imageRequest ∉ (handleGenerate s w).2) := by
  obtain ⟨ao, sr, ir⟩ := w
  rcases ao with _ | ⟨b1, b2⟩
  · rw [handleGenerate_keyMissing s ⟨none, sr, ir⟩ rfl]
    exact ⟨rfl, fun a ha => Option.noConfusion ha,
           fun _ => ⟨rfl, rfl, by simp [ensureApiKey], by simp [ensureApiKey]⟩⟩
  · cases b1
    · cases b2
      · rw [handleGenerate_keyMissing s ⟨some ⟨false, false⟩, sr, ir⟩ rfl]
        refine ⟨rfl, fun a ha _ => ?_,
                fun _ => ⟨rfl, rfl, by simp [ensureApiKey], by simp [ensureApiKey]⟩⟩
        injection ha with h
        rw [← h]
        rfl
      · refine ⟨?_, fun a ha _ => ?_, fun hf => Bool.noConfusion (show true = false from hf)⟩
        · rcases handleGenerate_events_keyOk s ⟨some ⟨false, true⟩, sr, ir⟩ rfl with h | h <;>
            rw [h] <;> rfl
        · injection ha with h
          rw [← h]
          rfl
    · refine ⟨?_, fun a ha hb => ?_, fun hf => Bool.noConfusion (show true = false from hf)⟩
      · rcases handleGenerate_events_keyOk s ⟨some ⟨true, b2⟩, sr, ir⟩ rfl with h | h <;>
          rw [h] <;> rfl
      · injection ha with h
        rw [← h] at hb
        exact Bool.noConfusion (show true = false from hb)

/-- C4 witness: with no credential collaborator the run fails before any
adapter call. -/
theorem credential_guard_witness :
    (handleGenerate initialState keyMissingWorld).1.error =
      some "API Key is required to use the Time Machine." ∧
    (handleGenerate initialState keyMissingWorld).1.result = none ∧
    RunEvent.sceneRequest ∉ (handleGenerate initialState keyMissingWorld).2 ∧
    RunEvent.imageRequest ∉ (handleGenerate initialState keyMissingWorld).2 :=
  (credential_guard initialState keyMissingWorld).2.2 rfl

/-! ## Claim C6: end-to-end Red Fort scenario -/

/-- The component state holding the scenario's request data: Red Fort,
(28.6562, 77.2410), 1947-08-15, 08:30, Journalistic. -/
def redFortState : AppState :=
  { coords := redFortCoords, locationName := "Red Fort, Delhi", date := "1947-08-15",
    time := "08:30", style := .JOURNALISTIC, isLoading := false, loadingStep := "",
    result := none, error := none }

/-- An image response whose single part carries inline data `d`. -/
def respWithData (d : String) : SnapshotResponse :=
  { candidates := some
      [{ content := some
          { parts := some [{ inlineData := some { data := some d }, text := none }] } }] }

/-- The scenario's world: credential present, scene response `sceneText`,
image response with inline data `d`. -/
def scenarioWorld (sceneText d : String) : GenWorld :=
  { aistudioObj := some { hasKeyBefore := true, hasKeyAfterPick := true },
    sceneResult := .ok { text := some sceneText },
    imageResult := .ok (respWithData d) }

/-- C6: on a successful Red Fort run — a scene payload parsing to non-empty
`visualPrompt`/`story` strings and an image response carrying non-empty
inline data — the published result's `imageUrl` is the non-empty data URL
(an image data prefix followed by the payload), its description and story
equal the scene step's two fields, and its `promptUsed` is the single
combined prompt, which contains the style label "Photojournalism". -/
theorem scenario_a_success (sceneText vp st d : String)
    (hparse : jsonParse sceneText =
      .ok (.obj [("visualPrompt", .str vp), ("story", .str st)]))
    (hvp : vp ≠ "") (hst : st ≠ "") (hd : d ≠ "") :
    (handleGenerate redFortState (scenarioWorld sceneText d)).1.result =
      some { imageUrl := "data:image/png;base64," ++ d,
             description := .str vp, story := .str st,
             promptUsed := mkFinalPrompt { visualPrompt := .str vp, story := .str st }
               .JOURNALISTIC } ∧
    (handleGenerate redFortState (scenarioWorld sceneText d)).1.error = none ∧
    "data:image/png;base64," ++ d ≠ "" ∧
    List.isPrefixOf "data:image/png;base64,".toList
      ("data:image/png;base64," ++ d).toList = true ∧
    strContains (mkFinalPrompt { visualPrompt := .str vp, story := .str st } .JOURNALISTIC)
      "Photojournalism" = true := by
  have hne : sceneText ≠ "" := by
    intro h
    rw [h, show jsonParse "" = .error () from rfl] at hparse
    exact Except.noConfusion hparse
  have hctx : ∀ req : GenerationRequest,
      generateVisualPrompt req { text := some sceneText } =
        { visualPrompt := .str vp, story := .str st } := by
    intro req
    unfold generateVisualPrompt
    have hsrc : parseSource (some sceneText) = sceneText := by simp [parseSource, hne]
    rw [hsrc, hparse]
    dsimp only
    rw [show jsGetField (JsValue.obj [("visualPrompt", .str vp), ("story", .str st)])
          "visualPrompt" = .ok (some (.str vp)) from rfl]
    rw [show jsGetField (JsValue.obj [("visualPrompt", .str vp), ("story", .str st)])
          "story" = .ok (some (.str st)) from rfl]
    dsimp only
    unfold jsOrDefault jsTruthy
    simp [hvp, hst]
  have hfi : firstInlineData ((partsOf (respWithData d)).getD []) = some d := by
    rw [show (partsOf (respWithData d)).getD [] =
          [{ inlineData := some { data := some d }, text := none }] from rfl]
    unfold firstInlineData
    rw [List.findSome?_cons]
    dsimp only
    rw [if_neg hd]
  have himg : ∀ req : GenerationRequest,
      generateSnapshot req { visualPrompt := .str vp, story := .str st }
          (.ok (respWithData d)) =
        .ok { imageUrl := "data:image/png;base64," ++ d, description := .str vp,
              story := .str st,
              promptUsed := mkFinalPrompt { visualPrompt := .str vp, story := .str st }
                req.style } := by
    intro req
    unfold generateSnapshot
    dsimp only
    rw [hfi]
    dsimp only
    rw [if_neg (data_url_ne_empty d)]
  refine ⟨?_, ?_, data_url_ne_empty d, ?_, ?_⟩
  · simp only [handleGenerate, scenarioWorld, ensureApiKey]
    simp only [hctx, himg]
    rfl
  · simp only [handleGenerate, scenarioWorld, ensureApiKey]
    simp only [hctx, himg]
    rfl
  · simp only [List.isPrefixOf_iff_prefix]
    show "data:image/png;base64,".data <+: ("data:image/png;base64," ++ d).data
    rw [String.data_append]
    exact List.prefix_append _ _
  · exact strContains_append_left _ _ _
      (strContains_append_right
        (("\n    " ++ jsDisplay (JsValue.str vp)) ++ "\n    \n    Style: ")
        (styleLabel PhotoStyle.JOURNALISTIC) "Photojournalism" rfl)

/-- C6 witness: a fully concrete successful run. -/
theorem scenario_a_success_witness :
    (handleGenerate redFortState (scenarioWorld
        "\x7b\"visualPrompt\":\"Crowds at the ramparts\",\"story\":\"A new dawn\"\x7d"
        "QUJD")).1.result =
      some { imageUrl := "data:image/png;base64," ++ "QUJD",
             description := .str "Crowds at the ramparts", story := .str "A new dawn",
             promptUsed := mkFinalPrompt
               { visualPrompt := .str "Crowds at the ramparts", story := .str "A new dawn" }
               .JOURNALISTIC } ∧
    (handleGenerate redFortState (scenarioWorld
        "\x7b\"visualPrompt\":\"Crowds at the ramparts\",\"story\":\"A new dawn\"\x7d"
        "QUJD")).1.error = none ∧
    "data:image/png;base64," ++ "QUJD" ≠ "" ∧
    List.isPrefixOf "data:image/png;base64,".toList
      ("data:image/png;base64," ++ "QUJD").toList = true ∧
    strContains (mkFinalPrompt
        { visualPrompt := .str "Crowds at the ramparts", story := .str "A new dawn" }
        .JOURNALISTIC) "Photojournalism" = true :=
  scenario_a_success
    "\x7b\"visualPrompt\":\"Crowds at the ramparts\",\"story\":\"A new dawn\"\x7d"
    "Crowds at the ramparts" "A new dawn" "QUJD"
    rfl (by decide) (by decide) (by decide)

end Chronos
